import Mathlib

/-!
Shallow embedding of the alert-evaluation, market-data and broadcast
subsystems of the dashboard backend.

The definitions below are transcribed from the JavaScript source:

* `backend/services/alertService.js` — `AlertService` (checkAlerts,
  sendAlertNotification, sendEmailNotification, updateAlert,
  cleanupExpiredAlerts), `MarketDataService` (getMarketData,
  getBatchMarketData) and `WebSocketService` (startPeriodicUpdates,
  broadcastMarketDataUpdate, handleMarketDataSubscription).
* `backend/test-server.js` — the alternate alert-routes implementation
  (`POST /api/alerts/check` handler) with its own condition semantics.
* `backend/models/Alert.js` — the Alert schema (field set and enums).

Numbers are modelled as rationals (JS numbers at the magnitudes the code
compares behave identically for these claims), wall-clock instants as
naturals (milliseconds), and asynchronous effects (database saves,
notification dispatches, email attempts) as an explicit event trace.
-/

namespace Dashboard

/-- `alertType` enum of the Alert schema in `models/Alert.js`. -/
inductive AlertType
  | price
  | volume
  | change_percent
  | technical
deriving DecidableEq

/-- `condition` enum of the Alert schema in `models/Alert.js`. -/
inductive Condition
  | above
  | below
  | equals
deriving DecidableEq

/-- One market-data snapshot (the fields `checkAlerts` reads). -/
structure MarketData where
  symbol : String
  price : ℚ
  change : ℚ
  changePercent : ℚ
  volume : ℚ
deriving DecidableEq

/-- An Alert document (the fields of `models/Alert.js` that the core
reads or writes; `message`/`priority` carry no evaluation semantics and
are omitted). -/
structure Alert where
  id : Nat
  userId : Nat
  symbol : String
  alertType : AlertType
  condition : Condition
  targetValue : ℚ
  currentValue : ℚ
  isActive : Bool
  isTriggered : Bool
  triggeredAt : Option Nat
  notificationSent : Bool
  expiresAt : Option Nat
deriving DecidableEq

/-- A User document (the fields `sendAlertNotification` reads:
`user.email`, `user.preferences.notifications.email`). -/
structure User where
  id : Nat
  email : String
  emailNotifications : Bool
deriving DecidableEq

/-- Observable effects of one evaluation cycle: `save` is an
`alert.save()` persistence call recording the state written, `dispatch`
is an invocation of `sendAlertNotification` for a trigger event, and
`emailAttempt` is a `transporter.sendMail` call. -/
inductive Event
  | save (a : Alert)
  | dispatch (alertId : Nat)
  | emailAttempt (alertId : Nat)
deriving DecidableEq

/-- Environment of a cycle: `User.findById` (`users`), whether
`this.emailTransporter` is configured, and the outcome of a
`sendMail` attempt for a given alert id (`true` = the transport
reports success, `false` = it throws). -/
structure NotifyEnv where
  users : Nat → Option User
  emailConfigured : Bool
  sendOk : Nat → Bool

/-- `Math.abs` (transcribed literally; equals mathematical `|·|` on ℚ,
see `jsAbs_eq_abs`). -/
def jsAbs (x : ℚ) : ℚ := if x < 0 then -x else x

/-- JS `String.prototype.toUpperCase()` (character-wise upper-casing,
modelled over the string's character list). -/
def jsToUpper (s : String) : String := ⟨s.data.map Char.toUpper⟩

/-- The eligibility filter of `AlertService.checkAlerts`
(`Alert.find({isActive: true, isTriggered: false, $or: [{expiresAt:
{$exists: false}}, {expiresAt: {$gt: new Date()}}]})`). -/
def eligible (now : Nat) (a : Alert) : Bool :=
  a.isActive && !a.isTriggered &&
    (match a.expiresAt with
     | none => true
     | some t => decide (now < t))

/-- The `switch (alert.alertType)` of `checkAlerts` selecting
`currentValue` from the quote; `default: continue` (the `technical`
branch) skips the alert. -/
def observedValue (a : Alert) (m : MarketData) : Option ℚ :=
  match a.alertType with
  | AlertType.price => some m.price
  | AlertType.volume => some m.volume
  | AlertType.change_percent => some m.changePercent
  | AlertType.technical => none

/-- The `switch (alert.condition)` of `checkAlerts`:
`above` ⇒ `currentValue > targetValue` (strict), `below` ⇒
`currentValue < targetValue` (strict), `equals` ⇒
`Math.abs(currentValue - targetValue) < 0.01`. -/
def shouldTrigger (cond : Condition) (currentValue targetValue : ℚ) : Bool :=
  match cond with
  | Condition.above => decide (currentValue > targetValue)
  | Condition.below => decide (currentValue < targetValue)
  | Condition.equals => decide (jsAbs (currentValue - targetValue) < 1/100)

/-- `AlertService.sendEmailNotification(user, alert)`: one
`sendMail` attempt; on success `notificationSent := true` is persisted;
a transport error is caught and logged, leaving the alert unchanged. -/
def sendEmailNotification (sendOk : Bool) (a : Alert) : Alert × List Event :=
  if sendOk then
    let a1 := { a with notificationSent := true }
    (a1, [Event.emailAttempt a.id, Event.save a1])
  else
    (a, [Event.emailAttempt a.id])

/-- `AlertService.sendAlertNotification(alert)`: looks up the owning
user; if present, and the transporter is configured, and the user's
email preference is on, makes one email attempt; every error is caught
internally, so the caller never observes a failure. -/
def sendAlertNotification (env : NotifyEnv) (a : Alert) : Alert × List Event :=
  match env.users a.userId with
  | none => (a, [])
  | some u =>
    if env.emailConfigured && u.emailNotifications then
      sendEmailNotification (env.sendOk a.id) a
    else
      (a, [])

/-- Result of processing one alert in the `for (const alert of
activeAlerts)` loop of `checkAlerts`. -/
structure StepResult where
  alert : Alert
  triggered : Bool
  events : List Event
deriving DecidableEq

/-- The trigger transition of `checkAlerts`: `alert.isTriggered = true;
alert.triggeredAt = new Date(); alert.currentValue = currentValue`. -/
def triggerUpdate (now : Nat) (v : ℚ) (a : Alert) : Alert :=
  { a with isTriggered := true, triggeredAt := some now, currentValue := v }

/-- The body of the `checkAlerts` loop for one eligible alert: resolve
the quote from the batch map (`if (!marketData) continue`), select the
observed value, evaluate the condition; on trigger persist
`isTriggered/triggeredAt/currentValue` first, then call
`sendAlertNotification`; on non-trigger persist `currentValue` only. -/
def checkAlertStep (env : NotifyEnv) (now : Nat)
    (quotes : String → Option MarketData) (a : Alert) : StepResult :=
  match quotes a.symbol with
  | none => ⟨a, false, []⟩
  | some m =>
    match observedValue a m with
    | none => ⟨a, false, []⟩
    | some v =>
      if shouldTrigger a.condition v a.targetValue then
        let a1 := triggerUpdate now v a
        let n := sendAlertNotification env a1
        ⟨n.1, true, Event.save a1 :: Event.dispatch a.id :: n.2⟩
      else
        let a1 := { a with currentValue := v }
        ⟨a1, false, [Event.save a1]⟩

/-- Result of one full `checkAlerts` cycle: the updated alert store,
the returned `{checked, triggered}` counters, and the event trace. -/
structure CycleResult where
  alerts : List Alert
  checked : Nat
  triggered : Nat
  events : List Event
deriving DecidableEq

/-- `AlertService.checkAlerts()` over a store of alert documents: query
the eligible alerts; if none, return `{checked: 0, triggered: 0}`
without further work; otherwise process each eligible alert with
`checkAlertStep` (alerts that are not eligible are untouched). -/
def checkAlerts (env : NotifyEnv) (now : Nat)
    (quotes : String → Option MarketData) (store : List Alert) : CycleResult :=
  let elig := store.filter (fun a => eligible now a)
  if elig.length = 0 then
    ⟨store, 0, 0, []⟩
  else
    ⟨store.map (fun a =>
        if eligible now a then (checkAlertStep env now quotes a).alert else a),
     elig.length,
     (elig.filter (fun a => (checkAlertStep env now quotes a).triggered)).length,
     (elig.map (fun a => (checkAlertStep env now quotes a).events)).flatten⟩

/-! ### The alternate alert-routes implementation (`test-server.js`)

The repository carries a second, near-duplicate alert evaluator in the
`POST /api/alerts/check` route handler, with its own enums (`condition ∈
{above, below, change_percent}`, `alertType ∈ {price, volume, change}`,
a `status` string instead of the `isActive/isTriggered` pair) and its
own comparison semantics. -/

/-- `condition` values accepted by the test-server alert routes
(`body('condition').isIn(['above', 'below', 'change_percent'])`). -/
inductive TsCondition
  | above
  | below
  | change_percent
deriving DecidableEq

/-- `alertType` values accepted by the test-server alert routes
(`body('alertType').optional().isIn(['price', 'volume', 'change'])`). -/
inductive TsAlertType
  | price
  | volume
  | change
deriving DecidableEq

/-- The `switch (alert.alertType)` of the test-server check handler:
`volume` ⇒ volume, `change` ⇒ `Math.abs(currentData.changePercent)`,
`default` ⇒ price. -/
def tsObservedValue (t : TsAlertType) (m : MarketData) : ℚ :=
  match t with
  | TsAlertType.volume => m.volume
  | TsAlertType.change => jsAbs m.changePercent
  | TsAlertType.price => m.price

/-- The `switch (alert.condition)` of the test-server check handler:
`above` ⇒ `currentValue >= targetValue`, `below` ⇒
`currentValue <= targetValue`, `change_percent` ⇒
`Math.abs(currentData.changePercent) >= targetValue`. -/
def tsShouldTrigger (cond : TsCondition) (currentValue changePercent targetValue : ℚ) :
    Bool :=
  match cond with
  | TsCondition.above => decide (currentValue ≥ targetValue)
  | TsCondition.below => decide (currentValue ≤ targetValue)
  | TsCondition.change_percent => decide (jsAbs changePercent ≥ targetValue)

/-! ### Alert mutation operations outside the evaluation cycle -/

/-- The update document passed to `AlertService.updateAlert` and applied
with `{$set: updates}`: any subset of the schema's mutable fields may be
present (Mongoose's `runValidators` only type-checks the given values,
it does not restrict which fields a caller may set). -/
structure AlertUpdate where
  isActive : Option Bool := none
  isTriggered : Option Bool := none
  targetValue : Option ℚ := none
  condition : Option Condition := none
  currentValue : Option ℚ := none
  notificationSent : Option Bool := none
deriving DecidableEq

/-- `{$set: updates}` on one alert document: each field present in the
update replaces the stored value, absent fields are untouched. -/
def applySet (u : AlertUpdate) (a : Alert) : Alert :=
  { a with
    isActive := u.isActive.getD a.isActive
    isTriggered := u.isTriggered.getD a.isTriggered
    targetValue := u.targetValue.getD a.targetValue
    condition := u.condition.getD a.condition
    currentValue := u.currentValue.getD a.currentValue
    notificationSent := u.notificationSent.getD a.notificationSent }

/-- Replace the first list element satisfying `p` (the single document
`findOneAndUpdate` writes). -/
def replaceFirst (p : Alert → Bool) (a1 : Alert) : List Alert → List Alert
  | [] => []
  | b :: bs => if p b then a1 :: bs else b :: replaceFirst p a1 bs

/-- `AlertService.updateAlert(alertId, userId, updates)`:
`Alert.findOneAndUpdate({_id: alertId, userId}, {$set: updates})`;
throws `'Alert not found'` when no document matches. -/
def updateAlert (store : List Alert) (alertId userId : Nat) (u : AlertUpdate) :
    Except String (List Alert × Alert) :=
  match store.find? (fun a => a.id == alertId && a.userId == userId) with
  | none => Except.error "Alert not found"
  | some a =>
    let a1 := applySet u a
    Except.ok (replaceFirst (fun b => b.id == alertId && b.userId == userId) a1 store, a1)

/-- Filter of `AlertService.cleanupExpiredAlerts`:
`{expiresAt: {$lt: new Date()}, isActive: true}`. -/
def expiredActive (now : Nat) (a : Alert) : Bool :=
  (match a.expiresAt with
   | some t => decide (t < now)
   | none => false) && a.isActive

/-- `AlertService.cleanupExpiredAlerts()`: `Alert.updateMany` setting
`isActive := false` on every expired active alert; returns the modified
count. -/
def cleanupExpiredAlerts (now : Nat) (store : List Alert) : List Alert × Nat :=
  (store.map (fun a => if expiredActive now a then { a with isActive := false } else a),
   (store.filter (fun a => expiredActive now a)).length)

/-! ### Overlapping evaluation cycles

`WebSocketService.startPeriodicUpdates` installs
`setInterval(async () => { await alertService.checkAlerts(); }, 60000)`
with no re-entrancy guard: no flag is checked or set around the call, so
when one `checkAlerts` invocation is still awaiting (its `Alert.find`,
`alert.save` or notification calls) at the next tick, a second
invocation starts and its eligibility query can complete before the
first invocation's first `alert.save`.  The definition below is that
interleaving of two invocations: both run their query against the same
store state, then their write/notify phases run in order. -/

/-- Write the processed alerts of one invocation back into the store
(each saved document replaces the stored one with its id). -/
def applyStepResults (store : List Alert) (rs : List StepResult) : List Alert :=
  store.map (fun a =>
    match rs.find? (fun r => r.alert.id == a.id) with
    | some r => r.alert
    | none => a)

/-- Two overlapping `checkAlerts` invocations, interleaved so that the
second invocation's `Alert.find` eligibility query completes before the
first invocation's first `alert.save` (possible because the interval
callback has no re-entrancy guard and `checkAlerts` awaits between the
query and its writes).  Returns the final store and the concatenated
event trace of both invocations. -/
def overlappedCheckAlerts (env : NotifyEnv) (now : Nat)
    (quotes : String → Option MarketData) (store : List Alert) :
    List Alert × List Event :=
  let snapA := store.filter (fun a => eligible now a)
  let snapB := store.filter (fun a => eligible now a)
  let resA := snapA.map (checkAlertStep env now quotes)
  let store1 := applyStepResults store resA
  let resB := snapB.map (checkAlertStep env now quotes)
  let store2 := applyStepResults store1 resB
  (store2, (resA.map (fun r => r.events)).flatten ++ (resB.map (fun r => r.events)).flatten)

/-! ### MarketDataService (`marketDataService.js`) -/

/-- One in-memory cache entry (`this.cache.set(cacheKey, {data, timestamp})`). -/
structure CacheEntry where
  data : MarketData
  timestamp : Nat
deriving DecidableEq

/-- One durable-store record (the fields `getMarketData` reads back:
the formatted quote and `lastUpdated`). -/
structure DbRecord where
  data : MarketData
  lastUpdated : Nat
deriving DecidableEq

/-- The mutable state `getMarketData` reads and writes: the in-memory
cache map and the durable MarketData collection keyed by symbol. -/
structure MDState where
  cache : List (String × CacheEntry)
  db : List (String × DbRecord)
deriving DecidableEq

/-- Fetch environment of one `getMarketData` call: the outcome of
`fetchFromExternalAPI` (`none` when both providers return `null` —
each catches its own errors internally), whether the
`MarketData.getLatest` database read throws, and the clock. -/
structure FetchEnv where
  providers : String → Option MarketData
  dbThrows : Bool
  now : Nat

/-- `this.cacheTimeout = 60000` (one minute, in milliseconds). -/
def cacheTimeout : Nat := 60000

/-- Insert-or-overwrite for a map represented as an association list
(JS `Map.set` / object key assignment / Mongo upsert-by-key). -/
def upsert {α : Type} (l : List (String × α)) (k : String) (v : α) :
    List (String × α) :=
  if l.any (fun p => p.1 == k) then
    l.map (fun p => if p.1 == k then (k, v) else p)
  else
    l ++ [(k, v)]

/-- Steps 3–5 of `getMarketData`'s try block once the database has no
fresh record: `fetchFromExternalAPI`; on success `saveMarketData`
(db upsert) and cache it; otherwise `return dbData ?
this.formatMarketData(dbData) : null` (formatting is the identity in
this model: a `DbRecord` already carries the formatted quote). -/
def fetchOrFallback (env : FetchEnv) (st : MDState) (symbol cacheKey : String)
    (dbData : Option DbRecord) : Except String (Option MarketData × MDState) :=
  match env.providers symbol with
  | some fresh =>
    let st1 := { st with db := upsert st.db fresh.symbol ⟨fresh, env.now⟩ }
    let st2 := { st1 with cache := upsert st1.cache cacheKey ⟨fresh, env.now⟩ }
    Except.ok (some fresh, st2)
  | none => Except.ok (dbData.map (fun r => r.data), st)

/-- The try/catch body of `getMarketData` after the fresh-cache check:
read `MarketData.getLatest(symbol)` (a throw lands in the catch, which
returns the cached entry of any age when present and otherwise
re-throws); a fresh database record is cached and returned; else fall
through to the providers. -/
def getMarketDataUncached (env : FetchEnv) (st : MDState) (symbol cacheKey : String) :
    Except String (Option MarketData × MDState) :=
  if env.dbThrows then
    match st.cache.lookup cacheKey with
    | some c => Except.ok (some c.data, st)
    | none => Except.error "getLatest failed"
  else
    match st.db.lookup (jsToUpper symbol) with
    | some r =>
      if env.now - r.lastUpdated < cacheTimeout then
        Except.ok (some r.data,
          { st with cache := upsert st.cache cacheKey ⟨r.data, env.now⟩ })
      else
        fetchOrFallback env st symbol cacheKey (some r)
    | none => fetchOrFallback env st symbol cacheKey none

/-- `MarketDataService.getMarketData(symbol, useCache = true)`: return
an unexpired in-memory entry when allowed; otherwise run the try/catch
body.  The result is `ok (some quote)`, `ok none` (the JS `null`), or
an error (a rejected promise). -/
def getMarketData (env : FetchEnv) (st : MDState) (symbol : String)
    (useCache : Bool := true) : Except String (Option MarketData × MDState) :=
  let cacheKey := "market_" ++ symbol
  match (if useCache then st.cache.lookup cacheKey else none) with
  | some c =>
    if env.now - c.timestamp < cacheTimeout then
      Except.ok (some c.data, st)
    else
      getMarketDataUncached env st symbol cacheKey
  | none => getMarketDataUncached env st symbol cacheKey

/-- One entry of the map `getBatchMarketData` builds:
`{status: 'success', data}` or `{status: 'error', message}`. -/
inductive BatchEntry
  | success (data : MarketData)
  | error (message : String)
deriving DecidableEq

/-- The `results.forEach` accumulation of `getBatchMarketData` over the
settled per-symbol promises (each promise is
`getMarketData(symbol).catch(error => ({symbol, error: error.message}))`,
so it settles as a quote, as `null`, or as an error object — never as a
rejection).  A `null` result makes `result.error` throw a `TypeError`,
rejecting the whole batch. -/
def batchCollect (resolve : String → Except String (Option MarketData)) :
    List String → List (String × BatchEntry) →
    Except String (List (String × BatchEntry))
  | [], acc => Except.ok acc
  | s :: rest, acc =>
    match resolve s with
    | Except.error msg =>
      batchCollect resolve rest (upsert acc s (BatchEntry.error msg))
    | Except.ok (some m) =>
      batchCollect resolve rest (upsert acc m.symbol (BatchEntry.success m))
    | Except.ok none =>
      Except.error "TypeError: Cannot read properties of null (reading 'error')"

/-- `MarketDataService.getBatchMarketData(symbols)` with the per-symbol
settlement abstracted as `resolve`. -/
def getBatchMarketData (resolve : String → Except String (Option MarketData))
    (symbols : List String) : Except String (List (String × BatchEntry)) :=
  batchCollect resolve symbols []

/-! ### WebSocketService (`websocketService.js`) -/

/-- One socket connection: its id, the authenticated user id when the
auth middleware attached one (`socket.userId`), and the rooms it has
joined. -/
structure Conn where
  id : Nat
  userId : Option Nat
  rooms : List String
deriving DecidableEq

/-- One entry of `this.connectedUsers` (keyed by user id): the socket
and the user's `subscriptions` set of uppercased symbols. -/
structure ConnectedUser where
  socketId : Nat
  subscriptions : List String
deriving DecidableEq

/-- The WebSocket layer's state: all live connections (with their room
memberships, maintained by socket.io) and the `connectedUsers` map,
which holds authenticated users only. -/
structure WSState where
  conns : List Conn
  connectedUsers : List (Nat × ConnectedUser)
deriving DecidableEq

/-- JS `Set.add` on a list kept duplicate-free in insertion order. -/
def addUnique (l : List String) (s : String) : List String :=
  if l.contains s then l else l ++ [s]

/-- `socket.join(roomName)`. -/
def joinRoom (room : String) (c : Conn) : Conn :=
  { c with rooms := addUnique c.rooms room }

/-- One iteration of `handleMarketDataSubscription`'s `symbols.forEach`:
the socket joins `market_SYMBOL` unconditionally; only when
`socket.userId` is set is the symbol also added to that user's
`connectedUsers` subscription set. -/
def subscribeSymbol (st : WSState) (connId : Nat) (symbol : String) : WSState :=
  let room := "market_" ++ jsToUpper symbol
  let uid := (st.conns.find? (fun c => c.id == connId)).bind (fun c => c.userId)
  { conns := st.conns.map (fun c => if c.id == connId then joinRoom room c else c)
    connectedUsers :=
      match uid with
      | none => st.connectedUsers
      | some u =>
        st.connectedUsers.map (fun p =>
          if p.1 == u then
            (p.1, { p.2 with subscriptions := addUnique p.2.subscriptions (jsToUpper symbol) })
          else p) }

/-- `WebSocketService.handleMarketDataSubscription(socket, symbols)`
(the immediate `sendCurrentMarketData` snapshot is not modelled; no
claim depends on it). -/
def handleMarketDataSubscription (st : WSState) (connId : Nat)
    (symbols : List String) : WSState :=
  symbols.foldl (fun s sym => subscribeSymbol s connId sym) st

/-- One `io.to(roomName).emit('market_data_update', {[key]: payload})`
call: the target room, the single symbol key of the emitted object, and
the batch entry under that key (`none` when the key is absent from the
batch map, emitting `undefined`). -/
structure Emission where
  room : String
  symbolKey : String
  payload : Option BatchEntry
deriving DecidableEq

/-- `WebSocketService.broadcastMarketDataUpdate(symbols)`: one
`getBatchMarketData` upstream call, then one scoped emission per symbol
to `market_SYMBOL` carrying only that symbol's entry; a batch rejection
is caught and logged, emitting nothing.  The first component lists the
upstream batch-fetch calls made. -/
def broadcastMarketDataUpdate (resolve : String → Except String (Option MarketData))
    (symbols : List String) : List (List String) × List Emission :=
  match getBatchMarketData resolve symbols with
  | Except.error _ => ([symbols], [])
  | Except.ok data =>
    ([symbols],
     symbols.map (fun s =>
       ⟨"market_" ++ jsToUpper s, jsToUpper s, data.lookup (jsToUpper s)⟩))

/-- The symbol union the periodic tick actually computes: it iterates
`this.connectedUsers` (authenticated users only) and unions their
`subscriptions` sets.  Room memberships of anonymous sockets are not
consulted. -/
def subscribedUnion (st : WSState) : List String :=
  st.connectedUsers.foldl (fun acc p => p.2.subscriptions.foldl addUnique acc) []

/-- The 30-second `marketDataInterval` callback of
`startPeriodicUpdates`: compute `subscribedUnion`; when it is non-empty
(`subscribedSymbols.size > 0`) run `broadcastMarketDataUpdate` on it,
otherwise do nothing (no upstream calls, no emissions). -/
def periodicMarketTick (resolve : String → Except String (Option MarketData))
    (st : WSState) : List (List String) × List Emission :=
  let symbols := subscribedUnion st
  if 0 < symbols.length then broadcastMarketDataUpdate resolve symbols
  else ([], [])

/-- Modelled from the spec's words, for comparison with
`subscribedUnion`: "the union of symbols across all currently-joined
symbol rooms" — every symbol `s` such that some live connection has
joined the room `market_s`. -/
def joinedSymbolRooms (st : WSState) : List String :=
  st.conns.foldl (fun acc c =>
    c.rooms.foldl (fun acc2 r =>
      if r.data.take 7 = "market_".data then addUnique acc2 ⟨r.data.drop 7⟩ else acc2) acc) []

end Dashboard

namespace Dashboard

theorem jsAbs_eq_abs (x : ℚ) : jsAbs x = |x| := by
  unfold jsAbs
  rcases lt_or_le x 0 with h | h
  · rw [if_pos h, abs_of_neg h]
  · rw [if_neg (not_lt.mpr h), abs_of_nonneg h]

/-! ### Concrete fixtures used by counterexamples and witnesses -/

/-- A registered user with email notifications enabled. -/
def sampleUser : User := ⟨7, "user@example.com", true⟩

/-- `User.findById` knowing exactly `sampleUser`. -/
def usersOne : Nat → Option User := fun uid => if uid == 7 then some sampleUser else none

/-- Transporter configured, user found, every send succeeds. -/
def envOk : NotifyEnv := ⟨usersOne, true, fun _ => true⟩

/-- Transporter configured, user found, every send throws. -/
def envFail : NotifyEnv := ⟨usersOne, true, fun _ => false⟩

/-- A TCS quote at price `p` (other fields zero). -/
def quoteTCS (p : ℚ) : MarketData := ⟨"TCS", p, 0, 0, 0⟩

/-- A batch map resolving only TCS, at price `p`. -/
def quotesAt (p : ℚ) : String → Option MarketData :=
  fun s => if s == "TCS" then some (quoteTCS p) else none

/-- Price alert: TCS above 100, active, untriggered, no expiry. -/
def alertAbove : Alert :=
  ⟨1, 7, "TCS", AlertType.price, Condition.above, 100, 0, true, false, none, false, none⟩

/-- A TCS quote whose percent change is `cp` (other fields zero). -/
def quoteCp (cp : ℚ) : MarketData := ⟨"TCS", 0, 0, cp, 0⟩

/-- A batch map resolving only TCS, with percent change `cp`. -/
def quotesCp (cp : ℚ) : String → Option MarketData :=
  fun s => if s == "TCS" then some (quoteCp cp) else none

/-- Percent-change alert: TCS change_percent above 1. -/
def alertCp : Alert :=
  ⟨2, 7, "TCS", AlertType.change_percent, Condition.above, 1, 0, true, false, none, false, none⟩

/-- Equals alert: TCS price equals 100. -/
def alertEq : Alert :=
  ⟨3, 7, "TCS", AlertType.price, Condition.equals, 100, 0, true, false, none, false, none⟩

/-- An already-triggered alert (the terminal state of `alertAbove`). -/
def triggeredAlert : Alert :=
  ⟨4, 7, "TCS", AlertType.price, Condition.above, 100, 101, true, true, some 5, false, none⟩

example : shouldTrigger Condition.above 100 100 = false := by decide
example : shouldTrigger Condition.equals (20001/200) 100 = true := by
  simp only [shouldTrigger, jsAbs_eq_abs, decide_eq_true_eq]
  norm_num [abs_lt]
example : shouldTrigger Condition.equals (10002/100) 100 = false := by
  simp only [shouldTrigger, jsAbs_eq_abs, decide_eq_false_iff_not]
  norm_num [le_abs]

/-! ### C1 — comparison semantics of `above` / `below` -/

/-- C1 counterexample: in `AlertService.checkAlerts` an `above` alert
whose observed value exactly equals its target does NOT trigger
(`currentValue > targetValue` is strict), contradicting the claim's
"observed ≥ target" for a resolved, eligible alert. -/
theorem c1_counterexample :
    eligible 0 alertAbove = true ∧
    quotesAt 100 alertAbove.symbol = some (quoteTCS 100) ∧
    observedValue alertAbove (quoteTCS 100) = some 100 ∧
    (100 : ℚ) ≥ alertAbove.targetValue ∧
    (checkAlerts envOk 0 (quotesAt 100) [alertAbove]).triggered = 0 := by
  refine ⟨rfl, rfl, rfl, le_refl _, rfl⟩

/-- C1 amended: for an eligible alert with a resolved quote and
observed value `v`, the `AlertService.checkAlerts` evaluator triggers
`above` iff `v > target` and `below` iff `v < target` (strict), while
the test-server `POST /api/alerts/check` evaluator uses the non-strict
`v ≥ target` / `v ≤ target`. -/
theorem c1_amended (env : NotifyEnv) (now : Nat)
    (quotes : String → Option MarketData) (a : Alert) (m : MarketData) (v : ℚ)
    (hq : quotes a.symbol = some m) (hv : observedValue a m = some v) :
    (a.condition = Condition.above →
      ((checkAlertStep env now quotes a).triggered = true ↔ v > a.targetValue)) ∧
    (a.condition = Condition.below →
      ((checkAlertStep env now quotes a).triggered = true ↔ v < a.targetValue)) ∧
    (∀ cp t : ℚ,
      (tsShouldTrigger TsCondition.above v cp t = true ↔ v ≥ t) ∧
      (tsShouldTrigger TsCondition.below v cp t = true ↔ v ≤ t)) := by
  refine ⟨fun hc => ?_, fun hc => ?_, fun cp t => ⟨?_, ?_⟩⟩
  · by_cases h : v > a.targetValue <;>
      simp [checkAlertStep, hq, hv, shouldTrigger, hc, h]
  · by_cases h : v < a.targetValue <;>
      simp [checkAlertStep, hq, hv, shouldTrigger, hc, h]
  · simp [tsShouldTrigger]
  · simp [tsShouldTrigger]

/-- C1 witness: the amended statement at a concrete input — TCS at 101
against an `above 100` alert triggers in the service evaluator. -/
theorem c1_witness :
    (checkAlertStep envOk 0 (quotesAt 101) alertAbove).triggered = true :=
  ((c1_amended envOk 0 (quotesAt 101) alertAbove (quoteTCS 101) 101 rfl rfl).1
    rfl).mpr (by norm_num [alertAbove])

/-! ### C2 — sign handling of `change_percent` -/

/-- C2 counterexample: in `AlertService.checkAlerts` the observed value
of a `change_percent` alert is the signed `changePercent`: with target 1
and condition `above`, a +5 percent change triggers but a −5 percent
change does not — the trigger decision is NOT sign-insensitive. -/
theorem c2_counterexample :
    observedValue alertCp (quoteCp (-5)) = some (-5) ∧
    (checkAlertStep envOk 0 (quotesCp 5) alertCp).triggered = true ∧
    (checkAlertStep envOk 0 (quotesCp (-5)) alertCp).triggered = false := by
  refine ⟨rfl, rfl, rfl⟩

/-- C2 amended: `AlertService.checkAlerts` compares the signed
`changePercent` for `change_percent` alerts (no absolute value), so
sign-insensitivity fails there; the test-server evaluator's
`change_percent` condition and `change` alert type do take
`Math.abs(changePercent)` and are sign-insensitive. -/
theorem c2_amended (a : Alert) (m : MarketData)
    (h : a.alertType = AlertType.change_percent) :
    observedValue a m = some m.changePercent ∧
    (∀ v cp t : ℚ, tsShouldTrigger TsCondition.change_percent v cp t
        = tsShouldTrigger TsCondition.change_percent v (-cp) t) ∧
    (∀ m1 : MarketData, tsObservedValue TsAlertType.change m1 = |m1.changePercent|) := by
  refine ⟨?_, fun v cp t => ?_, fun m1 => ?_⟩
  · simp [observedValue, h]
  · simp [tsShouldTrigger, jsAbs_eq_abs, abs_neg]
  · simp [tsObservedValue, jsAbs_eq_abs]

/-- C2 witness: the amended statement at a concrete input — the service
evaluator's observed value for `alertCp` on a −5 percent quote is the
signed −5. -/
theorem c2_witness :
    observedValue alertCp (quoteCp (-5)) = some ((quoteCp (-5)).changePercent) :=
  (c2_amended alertCp (quoteCp (-5)) rfl).1

/-! ### C8 — the `equals` epsilon -/

/-- C8 confirmed: for an eligible alert with a resolved quote, observed
value `v` and condition `equals`, `AlertService.checkAlerts` triggers
iff `|v − target| < 0.01` (fixed absolute epsilon). -/
theorem c8_equals_epsilon (env : NotifyEnv) (now : Nat)
    (quotes : String → Option MarketData) (a : Alert) (m : MarketData) (v : ℚ)
    (hq : quotes a.symbol = some m) (hv : observedValue a m = some v)
    (hc : a.condition = Condition.equals) :
    (checkAlertStep env now quotes a).triggered = true ↔
      |v - a.targetValue| < 1/100 := by
  have hs : shouldTrigger a.condition v a.targetValue
      = decide (|v - a.targetValue| < 1/100) := by
    rw [hc]
    simp only [shouldTrigger, jsAbs_eq_abs]
  have ht : (checkAlertStep env now quotes a).triggered
      = shouldTrigger a.condition v a.targetValue := by
    simp only [checkAlertStep, hq, hv]
    by_cases hb : shouldTrigger a.condition v a.targetValue = true
    · rw [if_pos hb, hb]
    · rw [Bool.not_eq_true] at hb
      rw [if_neg (by rw [hb]; exact Bool.false_ne_true), hb]
  rw [ht, hs]
  simp only [decide_eq_true_eq]

/-- C8 witness: with target 100.00, an observed 100.005 (= 20001/200)
triggers and an observed 100.02 (= 10002/100) does not. -/
theorem c8_witness :
    (checkAlertStep envOk 0 (quotesAt (20001/200)) alertEq).triggered = true ∧
    (checkAlertStep envOk 0 (quotesAt (10002/100)) alertEq).triggered = false := by
  constructor
  · exact (c8_equals_epsilon envOk 0 (quotesAt (20001/200)) alertEq
      (quoteTCS (20001/200)) (20001/200) rfl rfl rfl).mpr
      (by norm_num [alertEq, abs_lt])
  · have h := c8_equals_epsilon envOk 0 (quotesAt (10002/100)) alertEq
      (quoteTCS (10002/100)) (10002/100) rfl rfl rfl
    have hn : ¬ |(10002/100 : ℚ) - alertEq.targetValue| < 1/100 := by
      norm_num [alertEq, le_abs]
    cases hb : (checkAlertStep envOk 0 (quotesAt (10002/100)) alertEq).triggered
    · rfl
    · exact absurd (h.mp hb) hn

/-! ### Helper lemmas about `sendAlertNotification` -/

/-- Whether an event is a `sendAlertNotification` invocation. -/
def isDispatch : Event → Bool
  | Event.dispatch _ => true
  | _ => false

theorem sendAlertNotification_no_dispatch (env : NotifyEnv) (a : Alert) :
    (sendAlertNotification env a).2.filter isDispatch = [] := by
  cases hu : env.users a.userId with
  | none => simp [sendAlertNotification, hu]
  | some u =>
    by_cases h : env.emailConfigured && u.emailNotifications
    · by_cases hs : env.sendOk a.id
      · simp [sendAlertNotification, hu, h, sendEmailNotification, hs, isDispatch]
      · rw [Bool.not_eq_true] at hs
        simp [sendAlertNotification, hu, h, sendEmailNotification, hs, isDispatch]
    · rw [Bool.not_eq_true] at h
      simp [sendAlertNotification, hu, h]

theorem sendAlertNotification_alert (env : NotifyEnv) (a : Alert) :
    (sendAlertNotification env a).1 = a ∨
    (sendAlertNotification env a).1 = { a with notificationSent := true } := by
  cases hu : env.users a.userId with
  | none => exact Or.inl (by simp [sendAlertNotification, hu])
  | some u =>
    by_cases h : env.emailConfigured && u.emailNotifications
    · by_cases hs : env.sendOk a.id
      · exact Or.inr (by simp [sendAlertNotification, hu, h, sendEmailNotification, hs])
      · rw [Bool.not_eq_true] at hs
        exact Or.inl (by simp [sendAlertNotification, hu, h, sendEmailNotification, hs])
    · rw [Bool.not_eq_true] at h
      exact Or.inl (by simp [sendAlertNotification, hu, h])

theorem sendAlertNotification_sent (env : NotifyEnv) (a : Alert)
    (hns : a.notificationSent = false) :
    ((sendAlertNotification env a).1.notificationSent = true ↔
      ∃ u, env.users a.userId = some u ∧ env.emailConfigured = true ∧
           u.emailNotifications = true ∧ env.sendOk a.id = true) := by
  cases hu : env.users a.userId with
  | none => simp [sendAlertNotification, hu, hns]
  | some u =>
    by_cases h : env.emailConfigured && u.emailNotifications
    · have h1 := h
      rw [Bool.and_eq_true] at h1
      by_cases hs : env.sendOk a.id
      · simp [sendAlertNotification, hu, h, sendEmailNotification, hs, h1.1, h1.2]
      · have hs1 := hs
        rw [Bool.not_eq_true] at hs1
        simp [sendAlertNotification, hu, h, sendEmailNotification, hs1, hns]
    · have h1 := h
      rw [Bool.not_eq_true, Bool.and_eq_false_iff] at h1
      simp only [sendAlertNotification, hu, if_neg h, hns, Bool.false_eq_true, false_iff]
      rintro ⟨u1, hu1, hc, he, _⟩
      cases Option.some.inj hu1
      rcases h1 with h1 | h1
      · rw [h1] at hc
        exact Bool.false_ne_true hc
      · rw [h1] at he
        exact Bool.false_ne_true he

/-! ### C7 — trigger persisted before dispatch, one dispatch, no rollback -/

/-- C7 confirmed: when an eligible alert with a resolved quote and
observed value `v` satisfies its condition, the event trace of its
evaluation starts with the persistence of the triggered state
(`isTriggered=true`, `triggeredAt=now`, `currentValue=v`) followed by
the single notification dispatch; no later event is a dispatch, and the
final alert state keeps the trigger transition whatever the
notification outcome (the environment, including email failure, is
universally quantified). -/
theorem c7_persist_before_notify (env : NotifyEnv) (now : Nat)
    (quotes : String → Option MarketData) (a : Alert) (m : MarketData) (v : ℚ)
    (hq : quotes a.symbol = some m) (hv : observedValue a m = some v)
    (ht : shouldTrigger a.condition v a.targetValue = true) :
    (∃ rest, (checkAlertStep env now quotes a).events =
      Event.save (triggerUpdate now v a) :: Event.dispatch a.id :: rest) ∧
    ((checkAlertStep env now quotes a).events.filter isDispatch).length = 1 ∧
    (checkAlertStep env now quotes a).alert.isTriggered = true ∧
    (checkAlertStep env now quotes a).alert.triggeredAt = some now ∧
    (checkAlertStep env now quotes a).alert.currentValue = v := by
  have hstep : checkAlertStep env now quotes a =
      ⟨(sendAlertNotification env (triggerUpdate now v a)).1, true,
        Event.save (triggerUpdate now v a) :: Event.dispatch a.id ::
          (sendAlertNotification env (triggerUpdate now v a)).2⟩ := by
    simp only [checkAlertStep, hq, hv, ht, if_true]
  have halert := sendAlertNotification_alert env (triggerUpdate now v a)
  refine ⟨⟨(sendAlertNotification env (triggerUpdate now v a)).2, by rw [hstep]⟩,
    ?_, ?_, ?_, ?_⟩
  · rw [hstep]
    simp [List.filter, isDispatch,
      sendAlertNotification_no_dispatch env (triggerUpdate now v a)]
  · rw [hstep]
    rcases halert with h | h <;> rw [h] <;> rfl
  · rw [hstep]
    rcases halert with h | h <;> rw [h] <;> rfl
  · rw [hstep]
    rcases halert with h | h <;> rw [h] <;> rfl

/-- C7 witness: a concrete triggering alert with a failing email
transport — the saved trigger state precedes the single dispatch and the
alert stays triggered. -/
theorem c7_witness :
    (∃ rest, (checkAlertStep envFail 0 (quotesAt 101) alertAbove).events =
      Event.save (triggerUpdate 0 101 alertAbove) :: Event.dispatch alertAbove.id :: rest) ∧
    ((checkAlertStep envFail 0 (quotesAt 101) alertAbove).events.filter isDispatch).length = 1 ∧
    (checkAlertStep envFail 0 (quotesAt 101) alertAbove).alert.isTriggered = true ∧
    (checkAlertStep envFail 0 (quotesAt 101) alertAbove).alert.triggeredAt = some 0 ∧
    (checkAlertStep envFail 0 (quotesAt 101) alertAbove).alert.currentValue = 101 :=
  c7_persist_before_notify envFail 0 (quotesAt 101) alertAbove (quoteTCS 101) 101
    rfl rfl (by decide)

/-! ### C10 — notificationSent semantics and absence of retries -/

/-- C10 confirmed: a triggered alert's `notificationSent` becomes true
exactly when the user is found, the transporter is configured, the
user's email preference is on, and the send succeeds; in every other
case the alert is returned unchanged (still `isTriggered=true`,
`notificationSent=false`); and the triggered alert is ineligible for
every later cycle, which leaves it untouched and makes no further
notification attempt. -/
theorem c10_notification_outcome (env : NotifyEnv) (now : Nat) (a : Alert)
    (hns : a.notificationSent = false) (htr : a.isTriggered = true) :
    ((sendAlertNotification env a).1.notificationSent = true ↔
      ∃ u, env.users a.userId = some u ∧ env.emailConfigured = true ∧
           u.emailNotifications = true ∧ env.sendOk a.id = true) ∧
    (sendAlertNotification env a).1.isTriggered = true ∧
    ((sendAlertNotification env a).1.notificationSent = false →
      (sendAlertNotification env a).1 = a) ∧
    eligible now (sendAlertNotification env a).1 = false ∧
    (∀ quotes, checkAlerts env now quotes [(sendAlertNotification env a).1] =
      ⟨[(sendAlertNotification env a).1], 0, 0, []⟩) := by
  have halert := sendAlertNotification_alert env a
  have htr1 : (sendAlertNotification env a).1.isTriggered = true := by
    rcases halert with h | h <;> simp [h, htr]
  have helig : eligible now (sendAlertNotification env a).1 = false := by
    simp [eligible, htr1]
  refine ⟨sendAlertNotification_sent env a hns, htr1, ?_, helig, fun quotes => ?_⟩
  · intro hns1
    rcases halert with h | h
    · exact h
    · rw [h] at hns1
      simp at hns1
  · simp [checkAlerts, List.filter, helig]

/-- C10 witness: with a failing email transport, the triggered alert is
returned unchanged — still triggered, never re-eligible. -/
theorem c10_witness :
    (sendAlertNotification envFail triggeredAlert).1.isTriggered = true ∧
    (sendAlertNotification envFail triggeredAlert).1 = triggeredAlert ∧
    eligible 10 (sendAlertNotification envFail triggeredAlert).1 = false := by
  have h := c10_notification_outcome envFail 10 triggeredAlert rfl rfl
  have hns : ¬ ((sendAlertNotification envFail triggeredAlert).1.notificationSent = true) := by
    rw [h.1]
    rintro ⟨u, hu, hc, he, hs⟩
    simp [envFail] at hs
  exact ⟨h.2.1, h.2.2.1 (Bool.not_eq_true _ ▸ hns), h.2.2.2.1⟩

/-! ### C4 — terminality of `isTriggered` -/

/-- The store after one cycle is the pointwise image of the eligible
alerts under the loop body; alerts that are not eligible are untouched
(shared helper: both branches of `checkAlerts` agree with this map). -/
theorem checkAlerts_alerts (env : NotifyEnv) (now : Nat)
    (quotes : String → Option MarketData) (store : List Alert) :
    (checkAlerts env now quotes store).alerts =
      store.map (fun b =>
        if eligible now b then (checkAlertStep env now quotes b).alert else b) := by
  simp only [checkAlerts]
  split
  · next hlen =>
    have hall : ∀ b ∈ store, eligible now b = false := by
      intro b hb
      by_contra hcon
      rw [Bool.not_eq_false] at hcon
      have hmem : b ∈ store.filter (fun c => eligible now c) :=
        List.mem_filter.mpr ⟨hb, hcon⟩
      rw [List.length_eq_zero.mp hlen] at hmem
      cases hmem
    have hgen : ∀ (l : List Alert), (∀ b ∈ l, eligible now b = false) →
        l = l.map (fun b =>
          if eligible now b then (checkAlertStep env now quotes b).alert else b) := by
      intro l
      induction l with
      | nil => intro _; rfl
      | cons b bs ih =>
        intro hl
        simp only [List.map_cons]
        rw [if_neg (by rw [hl b (List.mem_cons_self b bs)]; exact Bool.false_ne_true)]
        rw [← ih (fun c hc => hl c (List.mem_cons_of_mem b hc))]
    exact hgen store hall
  · rfl

/-- The update document `{isTriggered: false}`. -/
def resetUpdate : AlertUpdate := { isTriggered := some false }

/-- An update document touching no field. -/
def noUpdate : AlertUpdate := {}

/-- C4 counterexample: `AlertService.updateAlert` applies `$set` with
whatever fields the caller passes, so updating a triggered alert with
`{isTriggered: false}` resets the flag — the "alert update" operation
CAN set `isTriggered` back to false. -/
theorem c4_counterexample :
    triggeredAlert.isTriggered = true ∧
    updateAlert [triggeredAlert] 4 7 resetUpdate =
      Except.ok ([{ triggeredAlert with isTriggered := false }],
                 { triggeredAlert with isTriggered := false }) ∧
    ({ triggeredAlert with isTriggered := false }).isTriggered = false := by
  refine ⟨rfl, rfl, rfl⟩

/-- C4 amended: a triggered alert is never re-evaluated or changed by
an evaluation cycle (it survives any cycle unchanged, and a cycle over
it alone does no work and emits no events), the expiry sweep never
changes any alert's `isTriggered`, and `updateAlert` preserves
`isTriggered` whenever the update document does not itself carry an
`isTriggered` field; only an update explicitly containing
`isTriggered` can reset it. -/
theorem c4_amended (env : NotifyEnv) (now : Nat)
    (quotes : String → Option MarketData) (store : List Alert) (a : Alert)
    (ha : a ∈ store) (htr : a.isTriggered = true)
    (u : AlertUpdate) (hu : u.isTriggered = none) :
    a ∈ (checkAlerts env now quotes store).alerts ∧
    checkAlerts env now quotes [a] = ⟨[a], 0, 0, []⟩ ∧
    (applySet u a).isTriggered = true ∧
    (cleanupExpiredAlerts now store).1.map (fun b => b.isTriggered)
      = store.map (fun b => b.isTriggered) := by
  have he : eligible now a = false := by simp [eligible, htr]
  refine ⟨?_, ?_, ?_, ?_⟩
  · rw [checkAlerts_alerts]
    have hm := List.mem_map_of_mem
      (fun b => if eligible now b then (checkAlertStep env now quotes b).alert else b) ha
    simpa [he] using hm
  · simp [checkAlerts, List.filter_cons, he]
  · simp [applySet, hu, htr]
  · have hg : ∀ b : Alert,
        (if expiredActive now b then { b with isActive := false } else b).isTriggered
          = b.isTriggered := by
      intro b
      by_cases hb : expiredActive now b = true
      · rw [if_pos hb]
      · rw [if_neg hb]
    simp only [cleanupExpiredAlerts, List.map_map, Function.comp_def, hg]

/-- C4 witness: the amended statement at a concrete triggered alert and
an update document touching no field. -/
theorem c4_witness :
    triggeredAlert ∈ (checkAlerts envOk 11 (quotesAt 101) [triggeredAlert]).alerts ∧
    checkAlerts envOk 11 (quotesAt 101) [triggeredAlert] = ⟨[triggeredAlert], 0, 0, []⟩ ∧
    (applySet noUpdate triggeredAlert).isTriggered = true ∧
    (cleanupExpiredAlerts 11 [triggeredAlert]).1.map (fun b => b.isTriggered)
      = [triggeredAlert].map (fun b => b.isTriggered) :=
  c4_amended envOk 11 (quotesAt 101) [triggeredAlert] triggeredAlert
    (List.mem_singleton.mpr rfl) rfl noUpdate rfl

/-! ### C3 — overlapping evaluation cycles double-dispatch -/

/-- C3: the interval callback installs no re-entrancy guard, so two
overlapping `checkAlerts` invocations whose eligibility queries both
complete before either invocation's first save each observe the same
untriggered alert, and together dispatch the notification for the same
trigger event twice — a sequential cycle dispatches it once. -/
theorem c3_overlap_double_dispatch :
    ((overlappedCheckAlerts envOk 0 (quotesAt 101) [alertAbove]).2.filter isDispatch).length = 2 ∧
    (overlappedCheckAlerts envOk 0 (quotesAt 101) [alertAbove]).2.filter isDispatch
      = [Event.dispatch alertAbove.id, Event.dispatch alertAbove.id] ∧
    ((checkAlerts envOk 0 (quotesAt 101) [alertAbove]).events.filter isDispatch).length = 1 := by
  refine ⟨rfl, rfl, rfl⟩

/-! ### C5 — total-failure behaviour of `getMarketData` -/

/-- A stale cached quote for TCS. -/
def staleQuote : MarketData := ⟨"TCS", 99, 0, 0, 0⟩

/-- State: in-memory cache holds a TCS entry written at time 0; the
durable store is empty. -/
def stCacheStale : MDState := ⟨[("market_TCS", ⟨staleQuote, 0⟩)], []⟩

/-- State: empty in-memory cache; the durable store holds a TCS record
written at time 0. -/
def stDbStale : MDState := ⟨[], [("TCS", ⟨staleQuote, 0⟩)]⟩

/-- Environment: every provider fails (returns `null`), the store read
succeeds, and the clock (100000 ms) is far past the 60000 ms TTL. -/
def envNoData : FetchEnv := ⟨fun _ => none, false, 100000⟩

/-- C5 counterexample: with a stale in-memory entry present, no durable
record, and all providers failing, `getMarketData` returns `ok null` —
success with no quote — instead of the stale in-memory entry or a
NotAvailable error. -/
theorem c5_counterexample :
    stCacheStale.cache.lookup "market_TCS" = some ⟨staleQuote, 0⟩ ∧
    ¬ (envNoData.now - 0 < cacheTimeout) ∧
    envNoData.providers "TCS" = none ∧
    getMarketData envNoData stCacheStale "TCS" true = Except.ok (none, stCacheStale) := by
  refine ⟨rfl, by decide, rfl, rfl⟩

/-- C5 amended: when the in-memory cache has no fresh entry and all
providers fail, a successful store read makes the call return the stale
durable-store record when one exists and otherwise succeed with no
quote (`null`); the stale in-memory entry (of any age) is returned only
when the store read throws, and with no cached entry that error
propagates — there is no NotAvailable error and no success-free
guarantee. -/
theorem c5_amended (env : FetchEnv) (st : MDState) (symbol : String)
    (hfresh : ∀ c, st.cache.lookup ("market_" ++ symbol) = some c →
      ¬ (env.now - c.timestamp < cacheTimeout))
    (hp : env.providers symbol = none)
    (hstale : ∀ r, st.db.lookup (jsToUpper symbol) = some r →
      ¬ (env.now - r.lastUpdated < cacheTimeout)) :
    (env.dbThrows = false →
      getMarketData env st symbol true =
        Except.ok ((st.db.lookup (jsToUpper symbol)).map (fun r => r.data), st)) ∧
    (env.dbThrows = true →
      getMarketData env st symbol true =
        (match st.cache.lookup ("market_" ++ symbol) with
         | some c => Except.ok (some c.data, st)
         | none => Except.error "getLatest failed")) := by
  have hgm : getMarketData env st symbol true =
      getMarketDataUncached env st symbol ("market_" ++ symbol) := by
    cases hc : st.cache.lookup ("market_" ++ symbol) with
    | none => simp [getMarketData, hc]
    | some c =>
      have hnf := hfresh c hc
      simp [getMarketData, hc, hnf]
  have huf : env.dbThrows = false →
      getMarketDataUncached env st symbol ("market_" ++ symbol) =
        Except.ok ((st.db.lookup (jsToUpper symbol)).map (fun r => r.data), st) := by
    intro hdb
    cases hr : st.db.lookup (jsToUpper symbol) with
    | none => simp [getMarketDataUncached, hdb, hr, fetchOrFallback, hp]
    | some r =>
      have hns := hstale r hr
      simp [getMarketDataUncached, hdb, hr, hns, fetchOrFallback, hp]
  have hut : env.dbThrows = true →
      getMarketDataUncached env st symbol ("market_" ++ symbol) =
        (match st.cache.lookup ("market_" ++ symbol) with
         | some c => Except.ok (some c.data, st)
         | none => Except.error "getLatest failed") := by
    intro hdb
    simp [getMarketDataUncached, hdb]
  exact ⟨fun h => hgm.trans (huf h), fun h => hgm.trans (hut h)⟩

/-- C5 witness: the amended statement at a concrete input — empty
cache, stale durable record, failing providers: the stale store record
comes back. -/
theorem c5_witness :
    getMarketData envNoData stDbStale "TCS" true =
      Except.ok (some staleQuote, stDbStale) := by
  have h := (c5_amended envNoData stDbStale "TCS"
    (fun c hc => by cases hc)
    rfl
    (fun r hr => by
      cases Option.some.inj hr
      decide)).1 rfl
  simpa using h

/-! ### C6 — partial-failure isolation of `getBatchMarketData` -/

/-- Per-symbol settlement: TCS yields a quote; every other symbol
settles as `null` (providers failed and no cache/store data — the
settlement `getMarketData` produces in that situation, see
`c5_counterexample`). -/
def resolveNullOther : String → Except String (Option MarketData) :=
  fun s => if s == "TCS" then Except.ok (some (quoteTCS 101)) else Except.ok none

/-- Per-symbol settlement: TCS yields a quote; every other symbol's
promise rejects and is caught into an error object. -/
def resolveErrOther : String → Except String (Option MarketData) :=
  fun s => if s == "TCS" then Except.ok (some (quoteTCS 101)) else Except.error "fetch failed"

/-- C6: a thrown per-symbol failure is isolated into that symbol's
error entry, but a symbol settling as `null` (total data exhaustion)
makes `result.error` throw a TypeError inside `results.forEach`,
rejecting the whole batch and discarding TCS's successful result. -/
theorem c6_null_result_kills_batch :
    getBatchMarketData resolveErrOther ["TCS", "INFY"] =
      Except.ok [("TCS", BatchEntry.success (quoteTCS 101)),
                 ("INFY", BatchEntry.error "fetch failed")] ∧
    getMarketData envNoData ⟨[], []⟩ "INFY" true = Except.ok (none, ⟨[], []⟩) ∧
    getBatchMarketData resolveNullOther ["TCS", "INFY"] =
      Except.error "TypeError: Cannot read properties of null (reading 'error')" := by
  refine ⟨rfl, rfl, rfl⟩

/-! ### C9 — scope of the periodic broadcast tick -/

/-- One live connection, unauthenticated, no rooms yet. -/
def wsAnon : WSState := ⟨[⟨1, none, []⟩], []⟩

/-- The anonymous connection subscribes to TCS market data: it joins
the `market_TCS` room, but `connectedUsers` stays empty. -/
def wsAnonSub : WSState := handleMarketDataSubscription wsAnon 1 ["TCS"]

/-- One live connection authenticated as user 7, registered in
`connectedUsers` with no subscriptions yet. -/
def wsAuth : WSState := ⟨[⟨2, some 7, []⟩], [(7, ⟨2, []⟩)]⟩

/-- The authenticated connection subscribes to TCS market data. -/
def wsAuthSub : WSState := handleMarketDataSubscription wsAuth 2 ["TCS"]

/-- C9 counterexample: after an anonymous connection joins the
`market_TCS` room, the union over currently-joined symbol rooms is
`["TCS"]`, yet the periodic tick — which unions only authenticated
users' subscription sets — sees no symbols, issues zero upstream fetch
calls and emits nothing. -/
theorem c9_counterexample :
    joinedSymbolRooms wsAnonSub = ["TCS"] ∧
    subscribedUnion wsAnonSub = [] ∧
    periodicMarketTick resolveErrOther wsAnonSub = ([], []) := by
  refine ⟨by decide, rfl, rfl⟩

/-- C9 amended: the periodic tick computes the union of symbols across
the subscription sets of authenticated connected users (room joins of
anonymous connections are invisible to it); when that union is empty it
issues zero upstream fetch calls and no emissions, and when it is
non-empty it issues exactly one batch fetch for that union and every
emission goes to the room `market_SYMBOL` of its own payload key. -/
theorem c9_amended (resolve resolve0 : String → Except String (Option MarketData))
    (st st0 : WSState)
    (h0 : subscribedUnion st0 = [])
    (hne : subscribedUnion st ≠ []) :
    periodicMarketTick resolve0 st0 = ([], []) ∧
    (periodicMarketTick resolve st).1 = [subscribedUnion st] ∧
    ∀ e ∈ (periodicMarketTick resolve st).2, e.room = "market_" ++ e.symbolKey := by
  have hpos : 0 < (subscribedUnion st).length := List.length_pos.mpr hne
  have htick : periodicMarketTick resolve st =
      broadcastMarketDataUpdate resolve (subscribedUnion st) := by
    simp [periodicMarketTick, hpos]
  refine ⟨?_, ?_, ?_⟩
  · simp [periodicMarketTick, h0]
  · rw [htick]
    cases hb : getBatchMarketData resolve (subscribedUnion st) with
    | error msg => simp [broadcastMarketDataUpdate, hb]
    | ok data => simp [broadcastMarketDataUpdate, hb]
  · rw [htick]
    cases hb : getBatchMarketData resolve (subscribedUnion st) with
    | error msg =>
      simp [broadcastMarketDataUpdate, hb]
    | ok data =>
      simp only [broadcastMarketDataUpdate, hb]
      intro e he
      rcases List.mem_map.mp he with ⟨s, _, hs⟩
      rw [← hs]

/-- C9 witness: the amended statement at concrete states — the
anonymous-subscriber state has an empty union and a silent tick; the
authenticated-subscriber state fetches exactly its union. -/
theorem c9_witness :
    periodicMarketTick resolveErrOther wsAnonSub = ([], []) ∧
    (periodicMarketTick resolveErrOther wsAuthSub).1 = [subscribedUnion wsAuthSub] ∧
    ∀ e ∈ (periodicMarketTick resolveErrOther wsAuthSub).2,
      e.room = "market_" ++ e.symbolKey :=
  c9_amended resolveErrOther resolveErrOther wsAuthSub wsAnonSub rfl (by decide)

end Dashboard
